import Mathlib

set_option maxRecDepth 100000

/-!
Shallow embedding of the core of the `aws-parallelcluster` excerpt:
the template-synthesis helpers (`cdk_builder_utils.py`), the public
lifecycle API (`pcluster_api.py`) and the API-controller helpers
(`controllers/common.py`), together with proofs of the spec claims.

Python machine-level conventions used throughout:
* Python strings are Lean `String`s; byte strings are `List Nat` with
  entries below 256.
* Python truthiness on strings/options/lists is made explicit via the
  `pytruthy*` helpers.
* 32-bit arithmetic (inside SHA-1) is `Nat` arithmetic reduced `% 2^32`.
-/

/-! ### Python truthiness helpers -/

/-- Truthiness of a Python string: non-empty strings are truthy. -/
def pytruthyStr (s : String) : Bool := s ≠ ""

/-- Truthiness of an optional Python string (`None` and `""` are falsy). -/
def pytruthyOpt : Option String → Bool
  | none => false
  | some s => pytruthyStr s

/-! ### SHA-1 (as used by `hashlib.sha1` in `create_hash_suffix`)

The compression function is the standard SHA-1 of FIPS 180-4, written
over `Nat` with explicit reduction modulo `2^32 = 4294967296`. -/

/-- Rotate a 32-bit word (a `Nat` below `2^32`) left by `k` bits. -/
def rotl32 (x k : Nat) : Nat := ((x <<< k) % 4294967296) + (x >>> (32 - k))

/-- State of the five 32-bit SHA-1 chaining words. -/
structure Sha1State where
  a : Nat
  b : Nat
  c : Nat
  d : Nat
  e : Nat
deriving DecidableEq

/-- One SHA-1 round: `w` is the message-schedule word, `i` the round index. -/
def sha1Step (w i : Nat) (st : Sha1State) : Sha1State :=
  let f :=
    if i < 20 then (st.b &&& st.c) ||| ((st.b ^^^ 4294967295) &&& st.d)
    else if i < 40 then st.b ^^^ st.c ^^^ st.d
    else if i < 60 then (st.b &&& st.c) ||| (st.b &&& st.d) ||| (st.c &&& st.d)
    else st.b ^^^ st.c ^^^ st.d
  let k :=
    if i < 20 then 0x5A827999
    else if i < 40 then 0x6ED9EBA1
    else if i < 60 then 0x8F1BBCDC
    else 0xCA62C1D6
  let temp := (rotl32 st.a 5 + f + st.e + k + w) % 4294967296
  ⟨temp, st.a, rotl32 st.b 30, st.c, st.d⟩

/-- Group a byte list into big-endian 32-bit words. -/
def bytesToWords : List Nat → List Nat
  | b0 :: b1 :: b2 :: b3 :: rest =>
      (b0 * 16777216 + b1 * 65536 + b2 * 256 + b3) :: bytesToWords rest
  | _ => []

/-- Extend the 16-word schedule by `fuel` more words (`w[i] = rotl1 (w[i-3] xor
w[i-8] xor w[i-14] xor w[i-16])`). -/
def sha1ExtendLoop (acc : List Nat) : Nat → List Nat
  | 0 => acc
  | Nat.succ fuel =>
      let n := acc.length
      let w := rotl32 ((acc.getD (n - 3) 0) ^^^ (acc.getD (n - 8) 0) ^^^
        (acc.getD (n - 14) 0) ^^^ (acc.getD (n - 16) 0)) 1
      sha1ExtendLoop (acc ++ [w]) fuel

/-- The 80-word SHA-1 message schedule of one 64-byte chunk. -/
def sha1Schedule (chunk : List Nat) : List Nat :=
  sha1ExtendLoop (bytesToWords chunk) 64

/-- Process one 64-byte chunk against the running hash state. -/
def sha1ProcessChunk (h : Sha1State) (chunk : List Nat) : Sha1State :=
  let ws := sha1Schedule chunk
  let st := (ws.zip (List.range 80)).foldl (fun s p => sha1Step p.1 p.2 s) h
  ⟨(h.a + st.a) % 4294967296, (h.b + st.b) % 4294967296,
   (h.c + st.c) % 4294967296, (h.d + st.d) % 4294967296,
   (h.e + st.e) % 4294967296⟩

/-- Big-endian 8-byte encoding of a natural number (the length field). -/
def be64 (n : Nat) : List Nat :=
  [n >>> 56 % 256, n >>> 48 % 256, n >>> 40 % 256, n >>> 32 % 256,
   n >>> 24 % 256, n >>> 16 % 256, n >>> 8 % 256, n % 256]

/-- SHA-1 padding: `0x80`, zeros to 56 mod 64, then the bit length. -/
def sha1Pad (msg : List Nat) : List Nat :=
  let l := msg.length
  msg ++ 128 :: List.replicate ((120 - (l + 1) % 64) % 64) 0 ++ be64 (8 * l)

/-- Fold the padded message, chunk by chunk, through the compression.  The
`fuel` argument (structurally decreasing, so the kernel can evaluate hashes)
bounds the number of 64-byte chunks; each step consumes 64 bytes, so any fuel
at least the byte length exhausts the message. -/
def sha1Chunks : Nat → Sha1State → List Nat → Sha1State
  | 0, h, _ => h
  | _, h, [] => h
  | Nat.succ fuel, h, b :: rest =>
      sha1Chunks fuel (sha1ProcessChunk h ((b :: rest).take 64)) ((b :: rest).drop 64)

/-- SHA-1 of a byte string, as the five chaining words. -/
def sha1 (msg : List Nat) : Sha1State :=
  sha1Chunks (sha1Pad msg).length
    ⟨0x67452301, 0xEFCDAB89, 0x98BADCFE, 0x10325476, 0xC3D2E1F0⟩
    (sha1Pad msg)

/-- Lower-case hex digit for a nibble, as in `hexdigest`. -/
def hexChar : Nat → Char
  | 0 => '0' | 1 => '1' | 2 => '2' | 3 => '3' | 4 => '4'
  | 5 => '5' | 6 => '6' | 7 => '7' | 8 => '8' | 9 => '9'
  | 10 => 'a' | 11 => 'b' | 12 => 'c' | 13 => 'd' | 14 => 'e' | _ => 'f'

/-- The eight hex characters of one 32-bit word, most significant first. -/
def wordToHex (w : Nat) : List Char :=
  [hexChar (w / 268435456 % 16), hexChar (w / 16777216 % 16),
   hexChar (w / 1048576 % 16), hexChar (w / 65536 % 16),
   hexChar (w / 4096 % 16), hexChar (w / 256 % 16),
   hexChar (w / 16 % 16), hexChar (w % 16)]

/-- The 40 characters of `sha1(msg).hexdigest()`. -/
def sha1HexChars (msg : List Nat) : List Char :=
  wordToHex (sha1 msg).a ++ wordToHex (sha1 msg).b ++ wordToHex (sha1 msg).c ++
    wordToHex (sha1 msg).d ++ wordToHex (sha1 msg).e

/-- UTF-8 encoding of one character (Python `str.encode("utf-8")`). -/
def utf8EncodeChar (c : Char) : List Nat :=
  let n := c.toNat
  if n < 128 then [n]
  else if n < 2048 then [192 + n / 64, 128 + n % 64]
  else if n < 65536 then [224 + n / 4096, 128 + n / 64 % 64, 128 + n % 64]
  else [240 + n / 262144, 128 + n / 4096 % 64, 128 + n / 64 % 64, 128 + n % 64]

/-- UTF-8 encoding of a character list. -/
def utf8Encode (cs : List Char) : List Nat := (cs.map utf8EncodeChar).flatten

/-- ASCII lower-to-upper conversion; coincides with Python on the ASCII hex
digests this development feeds it. -/
def pyCharUpper (c : Char) : Char := c.toUpper

/-- ASCII upper-to-lower conversion (for Python `str.capitalize`'s tail). -/
def pyCharLower (c : Char) : Char := c.toLower

/-- Python `str.capitalize`: first character upper-cased (title-cased; the two
agree on ASCII), the rest lower-cased. -/
def pyCapitalize : List Char → List Char
  | [] => []
  | c :: cs => pyCharUpper c :: cs.map pyCharLower

/-- Embedding of `create_hash_suffix` (cdk_builder_utils.py line 73): the input
itself for the sentinel `"HeadNode"`, otherwise
`sha1(name.encode("utf-8")).hexdigest()[:16].capitalize()`. -/
def create_hash_suffix (string_to_hash : String) : String :=
  if string_to_hash = "HeadNode" then string_to_hash
  else ⟨pyCapitalize ((sha1HexChars (utf8Encode string_to_hash.data)).take 16)⟩

/-- Class of characters the amended C1 allows first: a decimal digit or an
upper-case hex letter. -/
def isUpperHexOrDigit (c : Char) : Bool := c.isDigit || ('A' ≤ c && c ≤ 'F')

/-! ### Shared-storage wiring (`get_shared_storage_options_by_type`) -/

/-- The `SharedStorageType` enum of the cluster config. -/
inductive SharedStorageType where
  | ebs
  | raid
  | efs
  | fsx
deriving DecidableEq

/-- The `default_storage_options` literal of
`get_shared_storage_options_by_type` (cdk_builder_utils.py lines 116-121),
transcribed verbatim: note the FSX default holds seventeen `NONE` fields. -/
def default_storage_options : SharedStorageType → String
  | .ebs => "NONE,NONE,NONE,NONE,NONE"
  | .raid => "NONE,NONE,NONE,NONE,NONE,NONE,NONE,NONE,NONE"
  | .efs => "NONE,NONE,NONE,NONE,NONE,NONE,NONE,NONE,NONE"
  | .fsx => "NONE,NONE,NONE,NONE,NONE,NONE,NONE,NONE,NONE,NONE,NONE,NONE,NONE,NONE,NONE,NONE,NONE"

/-- Embedding of `get_shared_storage_options_by_type` (cdk_builder_utils.py
line 114).  The Python dict (assumed, as in the claim, to contain the key) is
a total map; `m[t] if m[t] else default[t]` tests string truthiness. -/
def get_shared_storage_options_by_type
    (shared_storage_options : SharedStorageType → String)
    (storage_type : SharedStorageType) : String :=
  if pytruthyStr (shared_storage_options storage_type) then
    shared_storage_options storage_type
  else default_storage_options storage_type

/-- Comma-field arity the defaults actually have, per storage type. -/
def storageOptionArity : SharedStorageType → Nat
  | .ebs => 5
  | .raid => 9
  | .efs => 9
  | .fsx => 17

/-- Split a character list at a separator (accumulator holds the current
field reversed). -/
def splitOnCharAux (sep : Char) : List Char → List Char → List String
  | [], acc => [String.mk acc.reverse]
  | c :: cs, acc =>
      if c = sep then String.mk acc.reverse :: splitOnCharAux sep cs []
      else splitOnCharAux sep cs (c :: acc)

/-- Python `s.split(",")`: the comma-separated fields of `s` (one empty field
for the empty string, as in Python). -/
def pySplitComma (s : String) : List String := splitOnCharAux ',' s.data []

/-! ### IAM synthesis model (`NodeIamResourcesBase`)

The synthesis accumulator is modelled as the list of resource definitions a
`NodeIamResourcesBase` construct adds, in source order.  A created resource's
`.ref` is modelled by its logical name. -/

/-- One IAM policy statement (sid, actions, resources). -/
structure StatementM where
  sid : String
  actions : List String
  resources : List String
deriving DecidableEq

/-- A resource definition added by the node-IAM construct. -/
inductive ResourceM where
  | role (name : String) (managedPolicyArns : List String)
  | policy (name : String) (policyName : String) (statements : List StatementM)
      (roles : List String)
  | instanceProfile (name : String) (roles : List String)
deriving DecidableEq

/-- One `S3Access` grant as consumed by `_add_s3_access_policies_to_role`:
the grant's `resource_regex` pattern list and its `enable_write_access` flag. -/
structure S3AccessM where
  resource_regex : List String
  enable_write_access : Bool
deriving DecidableEq

/-- The node's `iam` settings used by the construct. -/
structure IamM where
  additional_iam_policy_arns : List String
  s3_access : List S3AccessM
deriving DecidableEq

/-- The per-node inputs of `_add_role_and_policies`: the two pass-through
ARNs (Python `None`-able strings) and the `iam` settings. -/
structure NodeM where
  instance_profile : Option String
  instance_role : Option String
  iam : IamM
deriving DecidableEq

/-- The cluster-config fields the construct reads: CloudWatch-logging flag,
scheduler name, and the (`AttributeError`-collapsed) optional
`dev_settings.cookbook.chef_cookbook` URL. -/
structure ClusterCfgM where
  cw_logs_enabled : Bool
  scheduler : String
  chef_cookbook : Option String
deriving DecidableEq

/-- Ambient stack identity used by `Stack.of(self)` accessors. -/
structure BuildEnv where
  partition : String
  url_suffix : String
  stack_name : String
deriving DecidableEq

/-- Modelled from the spec: `pcluster.utils.get_resource_name_from_resource_arn`
is not part of the excerpt; per the spec the reference "equals the ARN's
resource-name component", i.e. the part after the last `/`. -/
def get_resource_name_from_resource_arn (arn : String) : String :=
  (arn.splitOn "/").getLastD ""

/-- Modelled from the spec: `pcluster.utils.policy_name_to_arn` is not part of
the excerpt; it turns a managed-policy name into its AWS managed-policy ARN. -/
def policy_name_to_arn (partition name : String) : String :=
  "arn:" ++ partition ++ ":iam::aws:policy/" ++ name

/-- The `_format_arn(service="s3", resource=r, region="", account="")` shape. -/
def formatS3Arn (env : BuildEnv) (r : String) : String :=
  "arn:" ++ env.partition ++ ":s3:::" ++ r

/-- Embedding of `_add_node_role` (cdk_builder_utils.py line 320): the role's
`managed_policy_arns` is `list(set(...))`, so the final order is whatever
enumeration order the interpreter's string set produces; `enum` is that
enumeration (CPython's depends on the per-process string hash seed). -/
def add_node_role (enum : List String → List String) (env : BuildEnv)
    (cfg : ClusterCfgM) (node : NodeM) (name : String) : ResourceM :=
  let inserted := node.iam.additional_iam_policy_arns
    ++ (if cfg.cw_logs_enabled then
          [policy_name_to_arn env.partition "CloudWatchAgentServerPolicy"] else [])
    ++ (if cfg.scheduler = "awsbatch" then
          [policy_name_to_arn env.partition "AWSBatchFullAccess"] else [])
  ResourceM.role name (enum inserted)

/-- A faithful model of a Python set-of-strings enumeration: it lists every
inserted element exactly once, in some order the model does not fix. -/
def validSetEnum (enum : List String → List String) : Prop :=
  ∀ l : List String, (enum l).Nodup ∧ ∀ x, x ∈ enum l ↔ x ∈ l

/-- Embedding of `_condition_custom_cookbook_with_s3_url`: the
`try/except AttributeError` chain collapses to an option match. -/
def condition_custom_cookbook_with_s3_url (cfg : ClusterCfgM) : Bool :=
  match cfg.chef_cookbook with
  | some url => url.startsWith "s3://"
  | none => false

/-- Embedding of `_condition_create_s3_access_policies`:
`node.iam and node.iam.s3_access` (list truthiness). -/
def condition_create_s3_access_policies (node : NodeM) : Bool :=
  !node.iam.s3_access.isEmpty

/-- Modelled from the spec: `parse_bucket_url` is not part of the excerpt;
per the spec it parses `scheme://bucket[/key]` into bucket and key. -/
def parse_bucket_url (url : String) : String × String :=
  let rest := (url.splitOn "//").getD 1 ""
  match rest.splitOn "/" with
  | [] => ("", "")
  | bucket :: key => (bucket, String.intercalate "/" key)

/-- Embedding of `_add_custom_cookbook_policies_to_role`: the two-statement
`CustomCookbookS3Url` policy over the parsed bucket/key. -/
def add_custom_cookbook_policy (env : BuildEnv) (cfg : ClusterCfgM)
    (name roleRef : String) : ResourceM :=
  let parsed := parse_bucket_url ((cfg.chef_cookbook).getD "")
  ResourceM.policy name "CustomCookbookS3Url"
    [⟨"", ["s3:GetObject"],
        [formatS3Arn env (parsed.1 ++ "/" ++ parsed.2)]⟩,
     ⟨"", ["s3:GetBucketLocation"], [formatS3Arn env parsed.1]⟩]
    [roleRef]

/-- The read-only resource ARNs accumulated by
`_add_s3_access_policies_to_role`'s loop, in source order. -/
def s3ReadOnlyResources (env : BuildEnv) (node : NodeM) : List String :=
  ((node.iam.s3_access.filter (fun g => g.enable_write_access = false)).map
    (fun g => g.resource_regex.map (formatS3Arn env))).flatten

/-- The write-enabled resource ARNs accumulated by the same loop. -/
def s3ReadWriteResources (env : BuildEnv) (node : NodeM) : List String :=
  ((node.iam.s3_access.filter (fun g => g.enable_write_access = true)).map
    (fun g => g.resource_regex.map (formatS3Arn env))).flatten

/-- The statements of the `S3Access` policy document: a `S3Read` statement
only when the read-only list is non-empty, then a `S3ReadWrite` statement
only when the write list is non-empty (cdk_builder_utils.py lines 401-416). -/
def s3PolicyStatements (env : BuildEnv) (node : NodeM) : List StatementM :=
  (if s3ReadOnlyResources env node ≠ [] then
      [⟨"S3Read", ["s3:Get*", "s3:List*"], s3ReadOnlyResources env node⟩]
    else [])
  ++ (if s3ReadWriteResources env node ≠ [] then
      [⟨"S3ReadWrite", ["s3:*"], s3ReadWriteResources env node⟩]
    else [])

/-- Embedding of `_add_s3_access_policies_to_role`: one `S3Access` policy
resource carrying the conditional statements. -/
def add_s3_access_policy (env : BuildEnv) (node : NodeM)
    (name roleRef : String) : ResourceM :=
  ResourceM.policy name "S3Access" (s3PolicyStatements env node) [roleRef]

/-- Embedding of `_add_role_and_policies` (cdk_builder_utils.py line 291).
`buildPolicy` stands for the abstract `_build_policy` hook of the node-kind
subclass.  Returns the resources added (in source order) and the
`instance_profile` reference the construct ends up with. -/
def add_role_and_policies (enum : List String → List String) (env : BuildEnv)
    (cfg : ClusterCfgM) (buildPolicy : List StatementM) (node : NodeM)
    (name : String) : List ResourceM × String :=
  let suffix := create_hash_suffix name
  if pytruthyOpt node.instance_profile then
    ([], get_resource_name_from_resource_arn (node.instance_profile.getD ""))
  else if pytruthyOpt node.instance_role then
    let node_role_ref :=
      get_resource_name_from_resource_arn (node.instance_role.getD "")
    ([ResourceM.instanceProfile ("InstanceProfile" ++ suffix) [node_role_ref]],
     "InstanceProfile" ++ suffix)
  else
    let roleName := "Role" ++ suffix
    ([add_node_role enum env cfg node roleName,
      ResourceM.policy ("ParallelClusterPolicies" ++ suffix) "parallelcluster"
        buildPolicy [roleName]]
      ++ (if condition_custom_cookbook_with_s3_url cfg then
            [add_custom_cookbook_policy env cfg
              ("CustomCookbookPolicies" ++ suffix) roleName]
          else [])
      ++ (if condition_create_s3_access_policies node then
            [add_s3_access_policy env node ("S3AccessPolicies" ++ suffix)
              roleName]
          else [])
      ++ [ResourceM.instanceProfile ("InstanceProfile" ++ suffix) [roleName]],
     "InstanceProfile" ++ suffix)

/-- Discriminates role resources. -/
def ResourceM.isRole : ResourceM → Bool
  | .role _ _ => true
  | _ => false

/-- Discriminates policy resources. -/
def ResourceM.isPolicy : ResourceM → Bool
  | .policy _ _ _ _ => true
  | _ => false

/-- Discriminates the `S3Access` policy resource. -/
def ResourceM.isS3AccessPolicy : ResourceM → Bool
  | .policy _ pn _ _ => pn = "S3Access"
  | _ => false


/-! ### Version parsing and comparison (`packaging.version` as used here)

The API only ever compares dotted-numeric release versions (`"3.0.0"`,
`"4.0.0"`, recorded stack versions); `packaging.version.parse` on such
strings yields the release tuple, compared lexicographically with implicit
zero-padding. -/

/-- Numeric value of one dotted component (zero when not all digits, the
defaulted reading this model gives malformed components). -/
def chunkToNat (cs : List Char) : Nat :=
  if cs.all (fun c => c.isDigit) then
    cs.foldl (fun acc c => acc * 10 + (c.toNat - 48)) 0
  else 0

/-- Release components of a dotted-numeric version string. -/
def parseRelease (s : String) : List Nat :=
  (splitOnCharAux '.' s.data []).map (fun p => chunkToNat p.data)

/-- True when every remaining release component is zero. -/
def verAllZero : List Nat → Bool
  | [] => true
  | a :: as => a == 0 && verAllZero as

/-- Lexicographic strict order on release tuples, zero-padding the shorter
(so `3.0 = 3.0.0`, as `packaging` compares releases). -/
def verLt : List Nat → List Nat → Bool
  | [], [] => false
  | [], b :: bs => !verAllZero (b :: bs)
  | _ :: _, [] => false
  | a :: as, b :: bs =>
      if a < b then true else if b < a then false else verLt as bs

/-- Non-strict companion of `verLt`. -/
def verLe (a b : List Nat) : Bool := !verLt b a

/-- Embedding of `check_cluster_version` (controllers/common.py line 63):
`cluster.stack.version and parse("4.0.0") > parse(version) >= parse("3.0.0")`,
read as the truthiness of the Python chained expression. -/
def check_cluster_version (stack_version : String) : Bool :=
  pytruthyStr stack_version
    && verLt (parseRelease stack_version) (parseRelease "4.0.0")
    && verLe (parseRelease "3.0.0") (parseRelease stack_version)

/-! ### The public lifecycle API (`pcluster_api.py`)

Each public operation is a pure function of its arguments and of the
behaviors of its collaborators (an `ApiEnv` of `Except`-valued functions:
`.error` models a raised Python exception).  Every operation also returns
the list of provider calls it performed, so that "issues no mutating call"
is a statement about the model, not a comment. -/

/-- The Python exceptions distinguished by the API boundary:
`ClusterActionError` (with its `validation_failures`) and everything else. -/
inductive PyExc where
  | clusterActionError (msg : String) (failures : List String)
  | otherError (msg : String)
deriving DecidableEq

/-- Python `str(e)` for the modelled exceptions. -/
def PyExc.msg : PyExc → String
  | .clusterActionError m _ => m
  | .otherError m => m

/-- A provider call observable from an operation. -/
inductive Call where
  | describeStack (name : String)
  | createStack (name : String)
  | deleteStack (name : String)
  | startFleet (name : String)
  | stopFleet (name : String)
  | listStacks
deriving DecidableEq

/-- Calls that mutate provider state. -/
def Call.isMutating : Call → Bool
  | .createStack _ => true
  | .deleteStack _ => true
  | .startFleet _ => true
  | .stopFleet _ => true
  | _ => false

/-- Snapshot of a cluster's stack (`ClusterStack`). -/
structure ClusterStackM where
  cluster_name : String
  id : String
  name : String
  status : String
  outputs : List (String × String)
  version : String
  scheduler : String
  is_working_status : Bool
  head_node_ip : String
  head_node_user : String
deriving DecidableEq

/-- A fetched `Cluster` model: its stack snapshot plus live-resource info. -/
structure ClusterM where
  name : String
  stack : ClusterStackM
  head_node_instance : Option String
  compute_instances : List String
deriving DecidableEq

/-- The `ClusterInfo` value the API returns on success. -/
structure ClusterInfoM where
  name : String
  region : String
  version : String
  scheduler : String
  status : String
  stack_arn : String
  stack_name : String
  stack_status : String
  stack_outputs : List (String × String)
  head_node_ip : Option String
  user : Option String
  head_node : Option String
  compute_instances : Option (List String)
deriving DecidableEq

/-- Embedding of the `ClusterInfo` constructor (pcluster_api.py line 38):
head-node address and user only in a working status, live-resource info only
when a `Cluster` model was passed. -/
def mkClusterInfo (region : String) (stack : ClusterStackM)
    (cluster : Option ClusterM) : ClusterInfoM :=
  { name := stack.cluster_name
    region := region
    version := stack.version
    scheduler := stack.scheduler
    status := stack.status
    stack_arn := stack.id
    stack_name := stack.name
    stack_status := stack.status
    stack_outputs := stack.outputs
    head_node_ip := if stack.is_working_status then some stack.head_node_ip else none
    user := if stack.is_working_status then some stack.head_node_user else none
    head_node := match cluster with
      | some c => if stack.is_working_status then c.head_node_instance else none
      | none => none
    compute_instances := (cluster.map (fun c => c.compute_instances)) }

/-- The `ApiFailure` carrier (pcluster_api.py line 27). -/
structure ApiFailureM where
  message : String
  validation_failures : List String
deriving DecidableEq

/-- A success value of a public operation. -/
inductive ApiSuccess where
  | clusterInfo (info : ClusterInfoM)
  | clusterList (infos : List ClusterInfoM)
  | unit
deriving DecidableEq

/-- What crosses a public operation's boundary: a returned success value, a
returned `ApiFailure`, or (were a handler chain incomplete) an uncaught
exception. -/
inductive BoundaryResult where
  | ok (v : ApiSuccess)
  | failure (f : ApiFailureM)
  | uncaught (e : PyExc)
deriving DecidableEq

/-- True unless the operation let an exception escape. -/
def BoundaryResult.isHandled : BoundaryResult → Bool
  | .uncaught _ => false
  | _ => true

/-- One `except` clause: the failures it converts the exception to, if it
matches. -/
def ExcHandler := PyExc → Option ApiFailureM

/-- The `except ClusterActionError as e` clause of `create_cluster`:
`ApiFailure(str(e), e.validation_failures)`. -/
def handlerClusterActionError : ExcHandler
  | .clusterActionError m f => some ⟨m, f⟩
  | _ => none

/-- The `except Exception as e` clause: `ApiFailure(str(e))`. -/
def handlerAnyException : ExcHandler := fun e => some ⟨e.msg, []⟩

/-- Run an exception through an `except`-clause chain. -/
def runHandlers : List ExcHandler → PyExc → BoundaryResult
  | [], e => .uncaught e
  | h :: hs, e =>
      match h e with
      | some f => .failure f
      | none => runHandlers hs e

/-- Collaborator behaviors of the API, one `Except`-valued function per
outbound call the excerpt makes. -/
structure ApiEnv where
  mkClusterFromConfig : String → List (String × String) → Except PyExc ClusterM
  clusterCreate : ClusterM → Bool → Bool → Option Nat → Except PyExc ClusterStackM
  getClusterByName : String → Except PyExc ClusterM
  clusterDelete : ClusterM → Bool → Except PyExc ClusterM
  clusterStart : ClusterM → Except PyExc Unit
  clusterStop : ClusterM → Except PyExc Unit
  listPclusterStacks : Except PyExc (List ClusterStackM)

/-- The region visible to `get_region()` after the operation's
`os.environ["AWS_DEFAULT_REGION"] = region` preamble. -/
def resolveRegion (region : String) (regionEnv : Option String) : String :=
  if pytruthyStr region then region else regionEnv.getD ""

/-- Embedding of `PclusterApi.create_cluster` (pcluster_api.py line 88). -/
def create_cluster (env : ApiEnv) (regionEnv : Option String)
    (cluster_config : List (String × String)) (cluster_name region : String)
    (disable_rollback suppress_validators : Bool)
    (validation_failure_level : Option Nat) : BoundaryResult × List Call :=
  match env.mkClusterFromConfig cluster_name cluster_config with
  | .error e => (runHandlers [handlerClusterActionError, handlerAnyException] e, [])
  | .ok cluster =>
    match env.clusterCreate cluster disable_rollback suppress_validators
        validation_failure_level with
    | .error e =>
        (runHandlers [handlerClusterActionError, handlerAnyException] e,
         [Call.createStack cluster_name])
    | .ok stack =>
        (.ok (.clusterInfo (mkClusterInfo (resolveRegion region regionEnv) stack none)),
         [Call.createStack cluster_name])

/-- Embedding of `PclusterApi.delete_cluster` (pcluster_api.py line 120). -/
def delete_cluster (env : ApiEnv) (regionEnv : Option String)
    (cluster_name region : String) (keep_logs : Bool) :
    BoundaryResult × List Call :=
  match env.getClusterByName cluster_name with
  | .error e => (runHandlers [handlerAnyException] e, [Call.describeStack cluster_name])
  | .ok cluster =>
    match env.clusterDelete cluster keep_logs with
    | .error e =>
        (runHandlers [handlerAnyException] e,
         [Call.describeStack cluster_name, Call.deleteStack cluster_name])
    | .ok cluster2 =>
        (.ok (.clusterInfo
            (mkClusterInfo (resolveRegion region regionEnv) cluster2.stack (some cluster2))),
         [Call.describeStack cluster_name, Call.deleteStack cluster_name])

/-- Embedding of `PclusterApi.describe_cluster` (pcluster_api.py line 132). -/
def describe_cluster (env : ApiEnv) (regionEnv : Option String)
    (cluster_name region : String) : BoundaryResult × List Call :=
  match env.getClusterByName cluster_name with
  | .error e => (runHandlers [handlerAnyException] e, [Call.describeStack cluster_name])
  | .ok cluster =>
      (.ok (.clusterInfo
          (mkClusterInfo (resolveRegion region regionEnv) cluster.stack (some cluster))),
       [Call.describeStack cluster_name])

/-- The version-mismatch message `update_cluster` raises. -/
def updateVersionMismatchMsg (stackVersion installed : String) : String :=
  "The cluster was created with a different version of ParallelCluster: "
    ++ stackVersion ++ ". Installed version is " ++ installed
    ++ ". This operation may only be performed using the same ParallelCluster version used to create the cluster."

/-- Embedding of `PclusterApi.update_cluster` (pcluster_api.py line 144):
`installed` stands for `get_installed_version()`. -/
def update_cluster (env : ApiEnv) (regionEnv : Option String)
    (cluster_name region installed : String) : BoundaryResult × List Call :=
  match env.getClusterByName cluster_name with
  | .error e => (runHandlers [handlerAnyException] e, [Call.describeStack cluster_name])
  | .ok cluster =>
    if cluster.stack.version ≠ installed then
      (runHandlers [handlerAnyException]
        (.clusterActionError
          (updateVersionMismatchMsg cluster.stack.version installed) []),
       [Call.describeStack cluster_name])
    else
      (.ok (.clusterInfo
          (mkClusterInfo (resolveRegion region regionEnv) cluster.stack (some cluster))),
       [Call.describeStack cluster_name])

/-- Embedding of `PclusterApi.list_clusters` (pcluster_api.py line 165). -/
def list_clusters (env : ApiEnv) (regionEnv : Option String) (region : String) :
    BoundaryResult × List Call :=
  match env.listPclusterStacks with
  | .error e => (runHandlers [handlerAnyException] e, [Call.listStacks])
  | .ok stackList =>
      (.ok (.clusterList
          (stackList.map (fun s => mkClusterInfo (resolveRegion region regionEnv) s none))),
       [Call.listStacks])

/-- The `ComputeFleetStatus` enum; its members are those the spec lists in
its fleet-status machine (the excerpt only names the two `*_REQUESTED`
members). -/
inductive ComputeFleetStatus where
  | STOPPED
  | STOPPING
  | STOP_REQUESTED
  | STARTING
  | START_REQUESTED
  | RUNNING
  | UNKNOWN
deriving DecidableEq

/-- Display name of a fleet status, for the unsupported-status message. -/
def ComputeFleetStatus.show : ComputeFleetStatus → String
  | .STOPPED => "STOPPED"
  | .STOPPING => "STOPPING"
  | .STOP_REQUESTED => "STOP_REQUESTED"
  | .STARTING => "STARTING"
  | .START_REQUESTED => "START_REQUESTED"
  | .RUNNING => "RUNNING"
  | .UNKNOWN => "UNKNOWN"

/-- Embedding of `PclusterApi._is_version_2` (pcluster_api.py line 201):
`version.parse(cluster.stack.version) < version.parse("3.0.0")`. -/
def is_version_2 (cluster : ClusterM) : Bool :=
  verLt (parseRelease cluster.stack.version) (parseRelease "3.0.0")

/-- The version-guard message of `update_compute_fleet_status`. -/
def fleetVersionGuardMsg (clusterName stackVersion : String) : String :=
  "The cluster " ++ clusterName ++ " was created with ParallelCluster "
    ++ stackVersion
    ++ ". This operation may only be performed using the same version used to create the cluster."

/-- The unsupported-status message of `update_compute_fleet_status`. -/
def fleetUnsupportedMsg (status : ComputeFleetStatus) : String :=
  "Unable to update the compute fleet to status " ++ status.show
    ++ ". Not supported."

/-- Embedding of `PclusterApi.update_compute_fleet_status`
(pcluster_api.py line 178). -/
def update_compute_fleet_status (env : ApiEnv) (_regionEnv : Option String)
    (cluster_name _region : String) (status : ComputeFleetStatus) :
    BoundaryResult × List Call :=
  match env.getClusterByName cluster_name with
  | .error e => (runHandlers [handlerAnyException] e, [Call.describeStack cluster_name])
  | .ok cluster =>
    if is_version_2 cluster then
      (runHandlers [handlerAnyException]
        (.clusterActionError
          (fleetVersionGuardMsg cluster.name cluster.stack.version) []),
       [Call.describeStack cluster_name])
    else if status = .START_REQUESTED then
      match env.clusterStart cluster with
      | .error e =>
          (runHandlers [handlerAnyException] e,
           [Call.describeStack cluster_name, Call.startFleet cluster_name])
      | .ok _ =>
          (.ok .unit, [Call.describeStack cluster_name, Call.startFleet cluster_name])
    else if status = .STOP_REQUESTED then
      match env.clusterStop cluster with
      | .error e =>
          (runHandlers [handlerAnyException] e,
           [Call.describeStack cluster_name, Call.stopFleet cluster_name])
      | .ok _ =>
          (.ok .unit, [Call.describeStack cluster_name, Call.stopFleet cluster_name])
    else
      (.failure ⟨fleetUnsupportedMsg status, []⟩, [Call.describeStack cluster_name])

/-! ### The `configure_aws_region` controller decorator
(controllers/common.py line 30) -/

/-- Outcome of a request through the decorated controller: a
`BadRequestException` or the handler's result, paired in either case with the
final value of the `AWS_DEFAULT_REGION` environment variable. -/
def configure_aws_region_wrapper {α : Type} (supported : List String)
    (handler : Option String → α) (requestRegion : Option String)
    (envRegion : Option String) : Except String α × Option String :=
  let region := if pytruthyOpt requestRegion then requestRegion else envRegion
  if ¬ pytruthyOpt region then
    (.error "region needs to be set", envRegion)
  else if (region.getD "") ∉ supported then
    (.error ("invalid or unsupported region '" ++ region.getD "" ++ "'"), envRegion)
  else
    (.ok (handler region), region)

/-! ### Concrete fixtures used by the witnesses -/

/-- A fixed stack identity for concrete evaluations. -/
def sampleEnvB : BuildEnv := ⟨"aws", "amazonaws.com", "clustername"⟩

/-- A config with no optional feature enabled. -/
def sampleCfgB : ClusterCfgM := ⟨false, "slurm", none⟩

/-- A node supplying an existing instance-profile ARN. -/
def nodeWithProfile : NodeM :=
  ⟨some "arn:aws:iam::123456789012:instance-profile/MyProfile", none, ⟨[], []⟩⟩

/-- A node supplying an existing role ARN. -/
def nodeWithRole : NodeM :=
  ⟨none, some "arn:aws:iam::123456789012:role/MyRole", ⟨[], []⟩⟩

/-- A node with fully managed IAM and no S3 grants. -/
def nodeManaged : NodeM := ⟨none, none, ⟨[], []⟩⟩

/-- A managed node with one read-only S3 grant. -/
def nodeReadOnlyS3 : NodeM := ⟨none, none, ⟨[], [⟨["bucket1/*"], false⟩]⟩⟩

/-- A managed node with a read-only and a write-enabled S3 grant. -/
def nodeWriteS3 : NodeM :=
  ⟨none, none, ⟨[], [⟨["bucket1/*"], false⟩, ⟨["bucket2/*"], true⟩]⟩⟩

/-- A healthy 3.0.0 stack snapshot. -/
def sampleStack : ClusterStackM :=
  ⟨"c1", "arn:aws:cloudformation:us-east-1:123456789012:stack/c1/abc", "c1",
   "CREATE_COMPLETE", [], "3.0.0", "slurm", true, "10.0.0.1", "ec2-user"⟩

/-- The same snapshot recorded by a pre-3.0 creation. -/
def sampleOldStack : ClusterStackM := { sampleStack with version := "2.11.9" }

/-- A cluster wrapping `sampleStack`. -/
def sampleClusterC : ClusterM := ⟨"c1", sampleStack, some "i-head", ["i-1"]⟩

/-- A cluster wrapping `sampleOldStack`. -/
def sampleOldCluster : ClusterM := ⟨"c1", sampleOldStack, some "i-head", ["i-1"]⟩

/-- Collaborators: fetches succeed with `sampleClusterC`; `cluster.create`
raises a `ClusterActionError` carrying one validation finding. -/
def sampleApiEnv : ApiEnv :=
  { mkClusterFromConfig := fun _ _ => .ok sampleClusterC
    clusterCreate := fun _ _ _ _ =>
      .error (.clusterActionError "validation failed" ["finding1"])
    getClusterByName := fun _ => .ok sampleClusterC
    clusterDelete := fun c _ => .ok c
    clusterStart := fun _ => .ok ()
    clusterStop := fun _ => .ok ()
    listPclusterStacks := .ok [sampleStack] }

/-- The same collaborators, but fetches return the pre-3.0 cluster. -/
def sampleOldApiEnv : ApiEnv :=
  { sampleApiEnv with getClusterByName := fun _ => .ok sampleOldCluster }

/-! ### Helper lemmas -/

/-- Python `capitalize` preserves length. -/
theorem pyCapitalize_length (l : List Char) : (pyCapitalize l).length = l.length := by
  cases l <;> simp [pyCapitalize]

/-- A SHA-1 hexdigest has 40 characters. -/
theorem sha1HexChars_length (m : List Nat) : (sha1HexChars m).length = 40 := by
  simp [sha1HexChars, wordToHex]

/-- Any hex digit, once upper-cased, is a digit or an upper-case hex letter. -/
theorem upperHexOrDigit_of_hexChar : ∀ n, n < 16 →
    isUpperHexOrDigit (pyCharUpper (hexChar n)) = true := by decide

/-! ### C1: `create_hash_suffix` -/

/-- C1 counterexample: `create_hash_suffix` is NOT alphabetically led for every
non-sentinel input.  The repo's own expected template names this very value
(`Role15b342af42246b70` in test_cluster_stack.py): the suffix of `"queue1"`
starts with the digit `'1'`, because `str.capitalize` upper-cases a leading
letter but leaves a leading digit alone. -/
theorem create_hash_suffix_queue1_first_char_digit :
    ("queue1" : String) ≠ "HeadNode" ∧
    create_hash_suffix "queue1" = "15b342af42246b70" ∧
    ((create_hash_suffix "queue1").data.headD '0').isAlpha = false := by
  exact ⟨by decide, by decide, by decide⟩

/-- C1 (amended): `create_hash_suffix` returns the sentinel `"HeadNode"`
unchanged; on every other input it is a deterministic 16-character string
whose first character is a digit or an upper-case hex letter (the leading
hex digit of the SHA-1 digest after `capitalize`) — not always alphabetic. -/
theorem create_hash_suffix_sentinel_and_hash_shape :
    create_hash_suffix "HeadNode" = "HeadNode" ∧
    ∀ s : String, s ≠ "HeadNode" →
      (create_hash_suffix s).length = 16 ∧
      isUpperHexOrDigit ((create_hash_suffix s).data.headD '0') = true := by
  refine ⟨rfl, fun s hs => ⟨?_, ?_⟩⟩
  · show (create_hash_suffix s).data.length = 16
    simp only [create_hash_suffix, if_neg hs]
    show (pyCapitalize ((sha1HexChars (utf8Encode s.data)).take 16)).length = 16
    rw [pyCapitalize_length, List.length_take, sha1HexChars_length]
    decide
  · simp only [create_hash_suffix, if_neg hs]
    show isUpperHexOrDigit
      (pyCharUpper (hexChar ((sha1 (utf8Encode s.data)).a / 268435456 % 16))) = true
    exact upperHexOrDigit_of_hexChar _ (Nat.mod_lt _ (by norm_num))

/-- C1 witness: the amended statement evaluated at `"queue1"`. -/
theorem create_hash_suffix_sentinel_and_hash_shape_witness :
    (create_hash_suffix "queue1").length = 16 ∧
    isUpperHexOrDigit ((create_hash_suffix "queue1").data.headD '0') = true :=
  create_hash_suffix_sentinel_and_hash_shape.2 "queue1" (by decide)

/-! ### C2: shared-storage option arity -/

/-- C2 counterexample: the claim's arity table is wrong for FSX — the
unconfigured FSX option string splits into 17 fields, not 16 — and for a
configured entry the function returns the stored string verbatim, so a map
whose entry does not have the claimed arity yields that entry's arity. -/
theorem storage_options_arity_not_as_claimed :
    (pySplitComma (get_shared_storage_options_by_type (fun _ => "") SharedStorageType.fsx)).length = 17 ∧
    (pySplitComma (get_shared_storage_options_by_type (fun _ => "") SharedStorageType.fsx)).length ≠ 16 ∧
    (pySplitComma (get_shared_storage_options_by_type (fun _ => "a,b") SharedStorageType.ebs)).length ≠ 5 := by
  exact ⟨by decide, by decide, by decide⟩

/-- C2 (amended): for every options map whose configured (truthy) entry for a
type splits into that type's fixed arity (5 for EBS, 9 for RAID, 9 for EFS,
17 for FSX), the returned option string splits into exactly that arity; and
when no storage of the type is configured (falsy entry) every field of the
returned string is the `NONE` sentinel. -/
theorem get_shared_storage_options_arity
    (m : SharedStorageType → String) (t : SharedStorageType)
    (hconf : pytruthyStr (m t) = true →
      (pySplitComma (m t)).length = storageOptionArity t) :
    ((pySplitComma (get_shared_storage_options_by_type m t)).length = storageOptionArity t) ∧
    (pytruthyStr (m t) = false →
      ∀ f ∈ pySplitComma (get_shared_storage_options_by_type m t), f = "NONE") := by
  by_cases htr : pytruthyStr (m t) = true
  · rw [get_shared_storage_options_by_type, if_pos htr]
    exact ⟨hconf htr, fun hf => absurd htr (by simp [hf])⟩
  · have hf : pytruthyStr (m t) = false := by simpa using htr
    rw [get_shared_storage_options_by_type, if_neg (by simp [hf])]
    refine ⟨?_, fun _ => ?_⟩ <;> cases t <;> decide

/-- C2 witness: the amended statement at the empty map and FSX. -/
theorem get_shared_storage_options_arity_witness :
    ((pySplitComma (get_shared_storage_options_by_type (fun _ => "") SharedStorageType.fsx)).length = storageOptionArity SharedStorageType.fsx) ∧
    (pytruthyStr ((fun _ : SharedStorageType => "") SharedStorageType.fsx) = false →
      ∀ f ∈ pySplitComma (get_shared_storage_options_by_type (fun _ => "") SharedStorageType.fsx), f = "NONE") :=
  get_shared_storage_options_arity (fun _ => "") SharedStorageType.fsx (by decide)

/-! ### C3: determinism of synthesis -/

/-- C3: the managed-policy ARN list of a created node role is NOT
run-to-run deterministic.  `_add_node_role` materializes it as
`list(set(...))`; two enumerations that are both faithful set enumerations
(such as two CPython runs with different string-hash seeds) produce the same
role with its managed-policy ARNs in different orders, so re-synthesizing the
same `(config, stackName)` input can change the emitted property value. -/
theorem managed_policy_order_not_deterministic :
    ∃ enum1 enum2 : List String → List String,
      validSetEnum enum1 ∧ validSetEnum enum2 ∧
      add_node_role enum1 ⟨"aws", "amazonaws.com", "clustername"⟩
          ⟨false, "slurm", none⟩
          ⟨none, none, ⟨["arn:aws:iam::aws:policy/PolicyA",
                         "arn:aws:iam::aws:policy/PolicyB"], []⟩⟩ "RoleX"
        ≠ add_node_role enum2 ⟨"aws", "amazonaws.com", "clustername"⟩
          ⟨false, "slurm", none⟩
          ⟨none, none, ⟨["arn:aws:iam::aws:policy/PolicyA",
                         "arn:aws:iam::aws:policy/PolicyB"], []⟩⟩ "RoleX" := by
  refine ⟨fun l => l.dedup, fun l => l.dedup.reverse, ?_, ?_, ?_⟩
  · exact fun l => ⟨l.nodup_dedup, fun x => List.mem_dedup⟩
  · exact fun l => ⟨by simp [List.nodup_reverse, l.nodup_dedup],
      fun x => by simp [List.mem_reverse, List.mem_dedup]⟩
  · decide

/-! ### C4: first-match-wins IAM derivation -/

/-- C4: `_add_role_and_policies` follows first-match-wins order.  With an
instance-profile ARN, nothing is created and the profile reference is the
ARN's resource-name component; else with a role ARN, exactly one instance
profile wrapping that role's name is created; else a role is created (exactly
one role resource), with the baseline `parallelcluster` policy attached to it
and a fresh instance profile wrapping it. -/
theorem add_role_and_policies_first_match
    (enum : List String → List String) (env : BuildEnv) (cfg : ClusterCfgM)
    (bp : List StatementM) (node : NodeM) (name : String) :
    (pytruthyOpt node.instance_profile = true →
      (add_role_and_policies enum env cfg bp node name).1 = [] ∧
      (add_role_and_policies enum env cfg bp node name).2 =
        get_resource_name_from_resource_arn (node.instance_profile.getD "")) ∧
    (pytruthyOpt node.instance_profile = false →
      pytruthyOpt node.instance_role = true →
      (add_role_and_policies enum env cfg bp node name).1 =
        [ResourceM.instanceProfile ("InstanceProfile" ++ create_hash_suffix name)
          [get_resource_name_from_resource_arn (node.instance_role.getD "")]] ∧
      (add_role_and_policies enum env cfg bp node name).2 =
        "InstanceProfile" ++ create_hash_suffix name) ∧
    (pytruthyOpt node.instance_profile = false →
      pytruthyOpt node.instance_role = false →
      (add_role_and_policies enum env cfg bp node name).1.filter ResourceM.isRole =
        [add_node_role enum env cfg node ("Role" ++ create_hash_suffix name)] ∧
      ResourceM.policy ("ParallelClusterPolicies" ++ create_hash_suffix name)
          "parallelcluster" bp ["Role" ++ create_hash_suffix name]
        ∈ (add_role_and_policies enum env cfg bp node name).1 ∧
      ResourceM.instanceProfile ("InstanceProfile" ++ create_hash_suffix name)
          ["Role" ++ create_hash_suffix name]
        ∈ (add_role_and_policies enum env cfg bp node name).1 ∧
      (add_role_and_policies enum env cfg bp node name).2 =
        "InstanceProfile" ++ create_hash_suffix name) := by
  refine ⟨fun hp => ?_, fun hp hr => ?_, fun hp hr => ?_⟩
  · simp [add_role_and_policies, hp]
  · simp [add_role_and_policies, hp, hr]
  · simp only [add_role_and_policies, hp, hr, Bool.false_eq_true, if_false]
    refine ⟨?_, ?_, ?_, by trivial⟩ <;>
      split_ifs <;>
        simp [add_node_role, add_custom_cookbook_policy, add_s3_access_policy,
          ResourceM.isRole, List.filter]

/-- C4 witness: the three branches evaluated on concrete nodes. -/
theorem add_role_and_policies_first_match_witness :
    ((add_role_and_policies id sampleEnvB sampleCfgB [] nodeWithProfile "queue1").1 = [] ∧
     (add_role_and_policies id sampleEnvB sampleCfgB [] nodeWithProfile "queue1").2 =
       get_resource_name_from_resource_arn (nodeWithProfile.instance_profile.getD "")) ∧
    ((add_role_and_policies id sampleEnvB sampleCfgB [] nodeWithRole "queue1").1 =
       [ResourceM.instanceProfile ("InstanceProfile" ++ create_hash_suffix "queue1")
         [get_resource_name_from_resource_arn (nodeWithRole.instance_role.getD "")]] ∧
     (add_role_and_policies id sampleEnvB sampleCfgB [] nodeWithRole "queue1").2 =
       "InstanceProfile" ++ create_hash_suffix "queue1") ∧
    ((add_role_and_policies id sampleEnvB sampleCfgB [] nodeManaged "queue1").1.filter ResourceM.isRole =
       [add_node_role id sampleEnvB sampleCfgB nodeManaged ("Role" ++ create_hash_suffix "queue1")] ∧
     ResourceM.policy ("ParallelClusterPolicies" ++ create_hash_suffix "queue1")
         "parallelcluster" [] ["Role" ++ create_hash_suffix "queue1"]
       ∈ (add_role_and_policies id sampleEnvB sampleCfgB [] nodeManaged "queue1").1 ∧
     ResourceM.instanceProfile ("InstanceProfile" ++ create_hash_suffix "queue1")
         ["Role" ++ create_hash_suffix "queue1"]
       ∈ (add_role_and_policies id sampleEnvB sampleCfgB [] nodeManaged "queue1").1 ∧
     (add_role_and_policies id sampleEnvB sampleCfgB [] nodeManaged "queue1").2 =
       "InstanceProfile" ++ create_hash_suffix "queue1") :=
  ⟨(add_role_and_policies_first_match id sampleEnvB sampleCfgB [] nodeWithProfile "queue1").1
      (by decide),
   (add_role_and_policies_first_match id sampleEnvB sampleCfgB [] nodeWithRole "queue1").2.1
      (by decide) (by decide),
   (add_role_and_policies_first_match id sampleEnvB sampleCfgB [] nodeManaged "queue1").2.2
      (by decide) (by decide)⟩

/-! ### C5: S3-access policy statements -/

/-- C5: for a managed node, no `S3Access` policy resource is added when the
node declares no S3 grants; every emitted statement has a non-empty resource
list; with only read-only grants (each grant carrying at least one pattern,
as the data model guarantees) the document is exactly the one `Get*/List*`
statement and no write statement; and whenever write-enabled patterns exist
they are covered by the single `s3:*` statement. -/
theorem s3_access_policy_statements_spec
    (enum : List String → List String) (env : BuildEnv) (cfg : ClusterCfgM)
    (bp : List StatementM) (node : NodeM) (name : String) :
    (node.iam.s3_access = [] →
      (add_role_and_policies enum env cfg bp node name).1.filter
        ResourceM.isS3AccessPolicy = []) ∧
    (∀ st ∈ s3PolicyStatements env node, st.resources ≠ []) ∧
    ((∀ g ∈ node.iam.s3_access, g.enable_write_access = false) →
      (∀ g ∈ node.iam.s3_access, g.resource_regex ≠ []) →
      node.iam.s3_access ≠ [] →
      s3PolicyStatements env node =
        [⟨"S3Read", ["s3:Get*", "s3:List*"], s3ReadOnlyResources env node⟩]) ∧
    (s3ReadWriteResources env node ≠ [] →
      (s3PolicyStatements env node).filter
          (fun st => st.actions == ["s3:*"]) =
        [⟨"S3ReadWrite", ["s3:*"], s3ReadWriteResources env node⟩]) := by
  refine ⟨fun hnil => ?_, fun st hst => ?_, fun hro hreg hne => ?_, fun hw => ?_⟩
  · rw [add_role_and_policies]
    split_ifs <;>
      simp_all [condition_create_s3_access_policies, add_node_role,
        add_custom_cookbook_policy, ResourceM.isS3AccessPolicy, List.filter]
  · simp only [s3PolicyStatements, List.mem_append] at hst
    rcases hst with h | h <;> revert h <;> split_ifs with hcond <;>
      intro h <;> simp_all
  · have hwnil : s3ReadWriteResources env node = [] := by
      rw [s3ReadWriteResources]
      have hfnil : node.iam.s3_access.filter (fun g => g.enable_write_access = true) = [] :=
        List.filter_eq_nil_iff.mpr (fun g hg => by simp [hro g hg])
      rw [hfnil]
      rfl
    have hronil : s3ReadOnlyResources env node ≠ [] := by
      rw [s3ReadOnlyResources]
      have hfself : node.iam.s3_access.filter
          (fun g => g.enable_write_access = false) = node.iam.s3_access :=
        List.filter_eq_self.mpr (fun g hg => by simp [hro g hg])
      rw [hfself]
      intro hflat
      obtain ⟨g0, hg0⟩ := List.exists_mem_of_ne_nil _ hne
      have hmem : g0.resource_regex.map (formatS3Arn env)
          ∈ node.iam.s3_access.map (fun g => g.resource_regex.map (formatS3Arn env)) :=
        List.mem_map_of_mem _ hg0
      have hmapnil : g0.resource_regex.map (formatS3Arn env) = [] :=
        List.flatten_eq_nil_iff.mp hflat _ hmem
      exact hreg g0 hg0 (List.map_eq_nil_iff.mp hmapnil)
    rw [s3PolicyStatements, if_pos hronil, if_neg (by simp [hwnil])]
    simp
  · rw [s3PolicyStatements]
    split_ifs with hro <;> simp [List.filter, hw]

/-- C5 witness: evaluated on a grant-free node, a read-only node and a node
with one write-enabled grant. -/
theorem s3_access_policy_statements_spec_witness :
    ((add_role_and_policies id sampleEnvB sampleCfgB [] nodeManaged "queue1").1.filter
        ResourceM.isS3AccessPolicy = []) ∧
    (s3PolicyStatements sampleEnvB nodeReadOnlyS3 =
      [⟨"S3Read", ["s3:Get*", "s3:List*"], s3ReadOnlyResources sampleEnvB nodeReadOnlyS3⟩]) ∧
    ((s3PolicyStatements sampleEnvB nodeWriteS3).filter
        (fun st => st.actions == ["s3:*"]) =
      [⟨"S3ReadWrite", ["s3:*"], s3ReadWriteResources sampleEnvB nodeWriteS3⟩]) :=
  ⟨(s3_access_policy_statements_spec id sampleEnvB sampleCfgB [] nodeManaged "queue1").1 rfl,
   (s3_access_policy_statements_spec id sampleEnvB sampleCfgB [] nodeReadOnlyS3 "queue1").2.2.1
      (by decide) (by decide) (by decide),
   (s3_access_policy_statements_spec id sampleEnvB sampleCfgB [] nodeWriteS3 "queue1").2.2.2
      (by decide)⟩

/-! ### C6: totality of the public operations -/

/-- A bare `except Exception` chain converts every modelled exception. -/
theorem runHandlers_any_handled (e : PyExc) :
    (runHandlers [handlerAnyException] e).isHandled = true := by
  cases e <;> rfl

/-- The `except ClusterActionError` / `except Exception` chain of
`create_cluster` converts every modelled exception. -/
theorem runHandlers_create_handled (e : PyExc) :
    (runHandlers [handlerClusterActionError, handlerAnyException] e).isHandled = true := by
  cases e <;> rfl

/-- C6: every public lifecycle operation is total — whatever its
collaborators return or raise, the boundary returns a success or an
`ApiFailure`, never an uncaught exception; and `create_cluster` maps a
`ClusterActionError` from validation to a failure carrying the structured
finding list. -/
theorem api_operations_total (env : ApiEnv) (regionEnv : Option String)
    (cfg : List (String × String)) (name region installed : String)
    (dr sv keep : Bool) (fl : Option Nat) (status : ComputeFleetStatus) :
    (create_cluster env regionEnv cfg name region dr sv fl).1.isHandled = true ∧
    (delete_cluster env regionEnv name region keep).1.isHandled = true ∧
    (describe_cluster env regionEnv name region).1.isHandled = true ∧
    (update_cluster env regionEnv name region installed).1.isHandled = true ∧
    (list_clusters env regionEnv region).1.isHandled = true ∧
    (update_compute_fleet_status env regionEnv name region status).1.isHandled = true ∧
    (∀ cluster m f, env.mkClusterFromConfig name cfg = .ok cluster →
      env.clusterCreate cluster dr sv fl = .error (.clusterActionError m f) →
      (create_cluster env regionEnv cfg name region dr sv fl).1 = .failure ⟨m, f⟩) := by
  refine ⟨?_, ?_, ?_, ?_, ?_, ?_, ?_⟩
  · cases h1 : env.mkClusterFromConfig name cfg with
    | error e => simp [create_cluster, h1, runHandlers_create_handled e]
    | ok cluster =>
      cases h2 : env.clusterCreate cluster dr sv fl with
      | error e => simp [create_cluster, h1, h2, runHandlers_create_handled e]
      | ok stack => simp [create_cluster, h1, h2, BoundaryResult.isHandled]
  · cases h1 : env.getClusterByName name with
    | error e => simp [delete_cluster, h1, runHandlers_any_handled e]
    | ok cluster =>
      cases h2 : env.clusterDelete cluster keep with
      | error e => simp [delete_cluster, h1, h2, runHandlers_any_handled e]
      | ok cluster2 => simp [delete_cluster, h1, h2, BoundaryResult.isHandled]
  · cases h1 : env.getClusterByName name with
    | error e => simp [describe_cluster, h1, runHandlers_any_handled e]
    | ok cluster => simp [describe_cluster, h1, BoundaryResult.isHandled]
  · cases h1 : env.getClusterByName name with
    | error e => simp [update_cluster, h1, runHandlers_any_handled e]
    | ok cluster =>
      by_cases hv : cluster.stack.version = installed
      · simp [update_cluster, h1, hv, BoundaryResult.isHandled]
      · simp [update_cluster, h1, hv, runHandlers, handlerAnyException,
          BoundaryResult.isHandled]
  · cases h1 : env.listPclusterStacks with
    | error e => simp [list_clusters, h1, runHandlers_any_handled e]
    | ok stackList => simp [list_clusters, h1, BoundaryResult.isHandled]
  · cases h1 : env.getClusterByName name with
    | error e => simp [update_compute_fleet_status, h1, runHandlers_any_handled e]
    | ok cluster =>
      by_cases hv : is_version_2 cluster = true
      · simp [update_compute_fleet_status, h1, hv, runHandlers,
          handlerAnyException, BoundaryResult.isHandled]
      · by_cases hs1 : status = ComputeFleetStatus.START_REQUESTED
        · cases h2 : env.clusterStart cluster with
          | error e => simp [update_compute_fleet_status, h1, hv, hs1, h2,
              runHandlers_any_handled e]
          | ok u => simp [update_compute_fleet_status, h1, hv, hs1, h2,
              BoundaryResult.isHandled]
        · by_cases hs2 : status = ComputeFleetStatus.STOP_REQUESTED
          · cases h2 : env.clusterStop cluster with
            | error e => simp [update_compute_fleet_status, h1, hv, hs1, hs2, h2,
                runHandlers_any_handled e]
            | ok u => simp [update_compute_fleet_status, h1, hv, hs1, hs2, h2,
                BoundaryResult.isHandled]
          · simp [update_compute_fleet_status, h1, hv, hs1, hs2,
              BoundaryResult.isHandled]
  · intro cluster m f h1 h2
    simp [create_cluster, h1, h2, runHandlers, handlerClusterActionError]

/-- C6 witness: the validation-failure clause at the sample collaborators. -/
theorem api_operations_total_witness :
    (create_cluster sampleApiEnv none [] "c1" "us-east-1" false false none).1 =
      .failure ⟨"validation failed", ["finding1"]⟩ :=
  (api_operations_total sampleApiEnv none [] "c1" "us-east-1" "3.0.0" false false
      false none ComputeFleetStatus.RUNNING).2.2.2.2.2.2
    sampleClusterC "validation failed" ["finding1"] rfl rfl

/-! ### C7: update version gate -/

/-- C7: `update_cluster` never issues a mutating provider call; when the
fetched stack's recorded version differs from the installed version it
returns the version-mismatch failure (never a success), and when the
versions agree it returns exactly what `describe_cluster` returns. -/
theorem update_cluster_version_gate (env : ApiEnv) (regionEnv : Option String)
    (name region installed : String) :
    (∀ c ∈ (update_cluster env regionEnv name region installed).2,
        c.isMutating = false) ∧
    (∀ cluster, env.getClusterByName name = .ok cluster →
      cluster.stack.version ≠ installed →
      (update_cluster env regionEnv name region installed).1 =
        .failure ⟨updateVersionMismatchMsg cluster.stack.version installed, []⟩) ∧
    (∀ cluster, env.getClusterByName name = .ok cluster →
      cluster.stack.version = installed →
      (update_cluster env regionEnv name region installed).1 =
        (describe_cluster env regionEnv name region).1) := by
  refine ⟨?_, fun cluster h1 hv => ?_, fun cluster h1 hv => ?_⟩
  · intro c hc
    cases h1 : env.getClusterByName name with
    | error e =>
        simp [update_cluster, h1] at hc
        simp [hc, Call.isMutating]
    | ok cluster =>
        by_cases hv : cluster.stack.version = installed <;>
          · simp [update_cluster, h1, hv] at hc
            simp [hc, Call.isMutating]
  · simp [update_cluster, h1, hv, runHandlers, handlerAnyException, PyExc.msg]
  · simp [update_cluster, describe_cluster, h1, hv]

/-- C7 witness: the mismatch and match clauses at the sample collaborators
(stack version `"2.11.9"` vs installed `"3.0.0"`, then `"3.0.0"` vs
`"3.0.0"`). -/
theorem update_cluster_version_gate_witness :
    (update_cluster sampleOldApiEnv none "c1" "" "3.0.0").1 =
      .failure ⟨updateVersionMismatchMsg sampleOldCluster.stack.version "3.0.0", []⟩ ∧
    (update_cluster sampleApiEnv none "c1" "" "3.0.0").1 =
      (describe_cluster sampleApiEnv none "c1" "").1 :=
  ⟨(update_cluster_version_gate sampleOldApiEnv none "c1" "" "3.0.0").2.1
      sampleOldCluster rfl (by decide),
   (update_cluster_version_gate sampleApiEnv none "c1" "" "3.0.0").2.2
      sampleClusterC rfl (by decide)⟩

/-! ### C8: fleet-status guards -/

/-- C8: `update_compute_fleet_status` on a cluster whose recorded version
parses below `3.0.0` returns the version-guard failure and performs no
start/stop (no mutating call); and for any requested status other than the
two `*_REQUESTED` values it performs no mutating call and, past the version
guard, returns the unsupported-status failure. -/
theorem update_compute_fleet_status_guards (env : ApiEnv)
    (regionEnv : Option String) (name region : String)
    (status : ComputeFleetStatus) :
    (∀ cluster, env.getClusterByName name = .ok cluster →
      verLt (parseRelease cluster.stack.version) (parseRelease "3.0.0") = true →
      (update_compute_fleet_status env regionEnv name region status).1 =
        .failure ⟨fleetVersionGuardMsg cluster.name cluster.stack.version, []⟩ ∧
      ∀ c ∈ (update_compute_fleet_status env regionEnv name region status).2,
        c.isMutating = false) ∧
    (status ≠ ComputeFleetStatus.START_REQUESTED →
      status ≠ ComputeFleetStatus.STOP_REQUESTED →
      (∀ c ∈ (update_compute_fleet_status env regionEnv name region status).2,
        c.isMutating = false) ∧
      (∀ cluster, env.getClusterByName name = .ok cluster →
        is_version_2 cluster = false →
        (update_compute_fleet_status env regionEnv name region status).1 =
          .failure ⟨fleetUnsupportedMsg status, []⟩)) := by
  refine ⟨fun cluster h1 hv => ?_, fun hs1 hs2 => ⟨?_, fun cluster h1 hv => ?_⟩⟩
  · have hv2 : is_version_2 cluster = true := hv
    constructor
    · simp [update_compute_fleet_status, h1, hv2, runHandlers, handlerAnyException,
        PyExc.msg]
    · intro c hc
      simp [update_compute_fleet_status, h1, hv2, runHandlers,
        handlerAnyException] at hc
      simp [hc, Call.isMutating]
  · intro c hc
    cases h1 : env.getClusterByName name with
    | error e =>
        simp [update_compute_fleet_status, h1] at hc
        simp [hc, Call.isMutating]
    | ok cluster =>
        by_cases hv : is_version_2 cluster = true <;>
          · simp [update_compute_fleet_status, h1, hv, hs1, hs2] at hc
            simp [hc, Call.isMutating]
  · simp [update_compute_fleet_status, h1, hv, hs1, hs2]

/-- C8 witness: the version guard on the pre-3.0 sample cluster, and the
unsupported-status rejection for `RUNNING` on the 3.0.0 sample cluster. -/
theorem update_compute_fleet_status_guards_witness :
    ((update_compute_fleet_status sampleOldApiEnv none "c1" ""
        ComputeFleetStatus.START_REQUESTED).1 =
      .failure ⟨fleetVersionGuardMsg sampleOldCluster.name
        sampleOldCluster.stack.version, []⟩) ∧
    ((update_compute_fleet_status sampleApiEnv none "c1" ""
        ComputeFleetStatus.RUNNING).1 =
      .failure ⟨fleetUnsupportedMsg ComputeFleetStatus.RUNNING, []⟩) :=
  ⟨((update_compute_fleet_status_guards sampleOldApiEnv none "c1" ""
        ComputeFleetStatus.START_REQUESTED).1 sampleOldCluster rfl (by decide)).1,
   ((update_compute_fleet_status_guards sampleApiEnv none "c1" ""
        ComputeFleetStatus.RUNNING).2 (by decide) (by decide)).2
      sampleClusterC rfl (by decide)⟩

/-! ### C9: `check_cluster_version` acceptance range -/

/-- C9: `check_cluster_version` accepts exactly the clusters whose stack
version string is non-empty and whose parsed version lies in
`[3.0.0, 4.0.0)`; in particular versions `4.0.0` and above are rejected,
not only pre-3.0 versions. -/
theorem check_cluster_version_range :
    (∀ v : String, check_cluster_version v = true ↔
      (pytruthyStr v = true ∧
       verLe (parseRelease "3.0.0") (parseRelease v) = true ∧
       verLt (parseRelease v) (parseRelease "4.0.0") = true)) ∧
    check_cluster_version "2.11.9" = false ∧
    check_cluster_version "3.0.0" = true ∧
    check_cluster_version "3.9.2" = true ∧
    check_cluster_version "4.0.0" = false ∧
    check_cluster_version "4.1.0" = false ∧
    check_cluster_version "" = false := by
  refine ⟨fun v => ?_, by decide, by decide, by decide, by decide, by decide, by decide⟩
  rw [check_cluster_version]
  simp only [Bool.and_eq_true]
  tauto

/-- C9 witness: the characterization applied at the in-range `"3.5.0"`. -/
theorem check_cluster_version_range_witness :
    pytruthyStr "3.5.0" = true ∧
    verLe (parseRelease "3.0.0") (parseRelease "3.5.0") = true ∧
    verLt (parseRelease "3.5.0") (parseRelease "4.0.0") = true :=
  (check_cluster_version_range.1 "3.5.0").mp (by decide)

/-! ### C10: the region-configuring decorator -/

/-- C10: a request with no region and no `AWS_DEFAULT_REGION` is rejected
with the bad-request error with the environment untouched (so the handler
never ran); a resolved region outside the supported list is likewise
rejected; otherwise the handler runs with `AWS_DEFAULT_REGION` set to the
resolved region, which is also the final environment value. -/
theorem configure_aws_region_spec {α : Type} (supported : List String)
    (handler : Option String → α) (req env0 : Option String) :
    (pytruthyOpt req = false → env0 = none →
      configure_aws_region_wrapper supported handler req env0 =
        (.error "region needs to be set", env0)) ∧
    (∀ r : String, (if pytruthyOpt req then req else env0) = some r →
      pytruthyStr r = true → r ∉ supported →
      configure_aws_region_wrapper supported handler req env0 =
        (.error ("invalid or unsupported region '" ++ r ++ "'"), env0)) ∧
    (∀ r : String, (if pytruthyOpt req then req else env0) = some r →
      pytruthyStr r = true → r ∈ supported →
      configure_aws_region_wrapper supported handler req env0 =
        (.ok (handler (some r)), some r)) := by
  refine ⟨fun hreq henv => ?_, fun r hres htr hmem => ?_, fun r hres htr hmem => ?_⟩
  · subst henv
    have hr : (if pytruthyOpt req = true then req else (none : Option String)) = none := by
      rw [hreq]; simp
    rw [configure_aws_region_wrapper, hr]
    simp [pytruthyOpt]
  · rw [configure_aws_region_wrapper]
    simp only [hres]
    rw [if_neg (by simp [pytruthyOpt, htr]), if_pos (by simpa using hmem)]
    simp
  · rw [configure_aws_region_wrapper]
    simp only [hres]
    rw [if_neg (by simp [pytruthyOpt, htr]), if_neg (by simpa using hmem)]

/-- C10 witness: the three clauses at concrete requests against the
supported list `["us-east-1"]`. -/
theorem configure_aws_region_spec_witness :
    (configure_aws_region_wrapper ["us-east-1"] (fun _ => 0) none none =
      (.error "region needs to be set", none)) ∧
    (configure_aws_region_wrapper ["us-east-1"] (fun _ => 0) (some "mars-north-1") none =
      (.error ("invalid or unsupported region '" ++ "mars-north-1" ++ "'"), none)) ∧
    (configure_aws_region_wrapper ["us-east-1"] (fun _ => 0) (some "us-east-1") none =
      (.ok 0, some "us-east-1")) :=
  ⟨(configure_aws_region_spec ["us-east-1"] (fun _ => 0) none none).1 (by decide) rfl,
   (configure_aws_region_spec ["us-east-1"] (fun _ => 0) (some "mars-north-1") none).2.1
      "mars-north-1" (by decide) (by decide) (by decide),
   (configure_aws_region_spec ["us-east-1"] (fun _ => 0) (some "us-east-1") none).2.2
      "us-east-1" (by decide) (by decide) (by decide)⟩
